import Mathlib

/-!
Verification of the amlearn short-range-order feature engine
(`amlearn/featurize/featurizers/short_range_order.py`) and the
`check_within` utility (`amlearn/utils/check.py`) against their
natural-language specification.

The Python code is shallowly embedded: numbers are modelled as exact
rationals (`ℚ`), Python dictionaries as `Option`-valued lookup
functions, and raising code as `Except PyErr`.  Functions of the
repository that are not part of the two source files under analysis
(the Fortran kernels, `amlearn.utils.packing`, the `Site` data class)
are either taken as inputs or carry a `Modelled from the spec:` doc
comment.
-/

deriving instance DecidableEq for Except

namespace Amlearn

/-- Python exception kinds that the embedded code can raise. -/
inductive PyErr where
  | typeError
  | keyError
  | zeroDivisionError
  | indexError
deriving DecidableEq, Repr

/-- Python numeric division: raises `ZeroDivisionError` on a zero divisor. -/
def pyDiv (a b : ℚ) : Except PyErr ℚ :=
  if b = 0 then .error .zeroDivisionError else .ok (a / b)

/-- `math.pi` as the exact rational value of the IEEE-754 double
`3.141592653589793` (its `as_integer_ratio()`). -/
def mathPi : ℚ := 884279719003555 / 281474976710656

/-! ## `amlearn/utils/check.py` -/

/-- `sys.float_info.max` as an exact rational: `(2^53 - 1) * 2^971`. -/
def float_info_max : ℚ := (2 ^ 53 - 1) * 2 ^ 971

/-- `check_within` from `amlearn/utils/check.py` for `criterion_type="range"`
(lines 69-79): a `None` endpoint becomes `-sys.float_info.max`
(respectively `sys.float_info.max`) and the result is `(x > lo) & (x < hi)`. -/
def check_within (x : ℚ) (criterion : Option ℚ × Option ℚ) : Bool :=
  let range_lw := criterion.1.getD (-float_info_max)
  let range_hi := criterion.2.getD float_info_max
  decide (x > range_lw) && decide (x < range_hi)

/-- C10: with `criterion_type="range"`, `check_within` tests strict
inequalities — it returns `true` exactly when `lo < x` and `x < hi`, a value
equal to either endpoint is reported as not within the range, and a `None`
endpoint behaves exactly like the most negative (respectively most positive)
representable float. -/
theorem check_within_range_strict (x lo hi : ℚ) :
    (check_within x (some lo, some hi) = true ↔ lo < x ∧ x < hi) ∧
    check_within lo (some lo, some hi) = false ∧
    check_within hi (some lo, some hi) = false ∧
    check_within x (none, some hi) =
      check_within x (some (-float_info_max), some hi) ∧
    check_within x (some lo, none) =
      check_within x (some lo, some float_info_max) := by
  refine ⟨?_, ?_, ?_, rfl, rfl⟩
  · simp [check_within]
  · simp [check_within]
  · simp [check_within]

/-! ## `VolumeAreaInterstice.transform` (short_range_order.py, lines 306-438)

The loop body of `transform` (lines 334-344): per atom row, the neighbor-id
slots with positive identifier are resolved through `site_dict` (lines
336-338), then `PackingOfSite` is constructed (lines 339-342), and only after
that the fewer-than-4-neighbors guard emits the zero vector (lines 343-344).
The Python keyword-call semantics are embedded explicitly, because the
construction at line 339 passes keywords that `PackingOfSite.__init__`
(lines 29-30) does not accept. -/

/-- A 3-D coordinate triple. -/
structure Vec3 where
  x : ℚ
  y : ℚ
  z : ℚ
deriving DecidableEq, Repr

/-- One entry of `site_dict`: the coordinates and type of an atom,
as built from one `lmp_df` row at lines 322-324. -/
structure SiteRec where
  coords : Vec3
  typ : Nat
deriving DecidableEq, Repr

/-- Determinant of three 3-D vectors. -/
def det3 (a b c : Vec3) : ℚ :=
  a.x * (b.y * c.z - b.z * c.y) - a.y * (b.x * c.z - b.z * c.x) +
    a.z * (b.x * c.y - b.y * c.x)

/-- Vector difference of two points. -/
def vsub (p q : Vec3) : Vec3 := ⟨p.x - q.x, p.y - q.y, p.z - q.z⟩

/-- Four points are coplanar (this includes colinear configurations): every
3-D convex hull over them is degenerate. -/
def coplanar (p0 p1 p2 p3 : Vec3) : Prop :=
  det3 (vsub p1 p0) (vsub p2 p0) (vsub p3 p0) = 0

instance (p0 p1 p2 p3 : Vec3) : Decidable (coplanar p0 p1 p2 p3) := by
  unfold coplanar; infer_instance

/-- Keyword parameters accepted by `PackingOfSite.__init__`
(short_range_order.py, lines 29-30): only `radii` and `radius_type`
besides the positional `site`. -/
def packingOfSite_init_keywords : List String := ["radii", "radius_type"]

/-- Keyword arguments passed to the `PackingOfSite` construction inside
`VolumeAreaInterstice.transform` (lines 339-342). -/
def volumeAreaInterstice_call_keywords : List String :=
  ["radii", "radius_type", "calc_volume_area", "calc_packing_efficiency"]

/-- Python keyword-call semantics: a call succeeds only if every passed
keyword is among the accepted parameters (otherwise `TypeError`). -/
def keywords_accepted (accepted passed : List String) : Bool :=
  passed.all (fun k => accepted.contains k)

/-- Lines 336-338: `[site_dict[int(x)] for x in site_neighbors if x > 0]`.
Resolving an identifier absent from `site_dict` raises `KeyError`. -/
def resolve_neighbors (siteDict : Int → Option SiteRec) (slots : List Int) :
    Except PyErr (List SiteRec) :=
  (slots.filter (fun x => 0 < x)).mapM
    (fun x => match siteDict x with
      | some s => Except.ok s
      | none => Except.error PyErr.keyError)

/-- One iteration of the `VolumeAreaInterstice.transform` loop (lines
334-344).  `computeFeatures` abstracts the feature computation of lines
346-407, which runs only when the construction at line 339 succeeds and the
atom has at least 4 valid neighbors. -/
def volumeAreaInterstice_transform_row
    (computeFeatures : SiteRec → List SiteRec → Except PyErr (List ℚ))
    (siteDict : Int → Option SiteRec) (nFeatureNames : Nat)
    (site : SiteRec) (slots : List Int) : Except PyErr (List ℚ) :=
  match resolve_neighbors siteDict slots with
  | .error e => .error e
  | .ok nbrs =>
    if keywords_accepted packingOfSite_init_keywords
        volumeAreaInterstice_call_keywords then
      if nbrs.length < 4 then
        .ok (List.replicate nFeatureNames 0)
      else
        computeFeatures site nbrs
    else .error .typeError

/-- The `VolumeAreaInterstice.transform` loop over the atom rows of `X`
(each row paired with its `site_dict` entry, line 335): rows are processed
in order and the first raised exception aborts the whole batch. -/
def volumeAreaInterstice_transform
    (computeFeatures : SiteRec → List SiteRec → Except PyErr (List ℚ))
    (siteDict : Int → Option SiteRec) (nFeatureNames : Nat) :
    List (SiteRec × List Int) → Except PyErr (List (List ℚ))
  | [] => .ok []
  | (site, slots) :: rest =>
    match volumeAreaInterstice_transform_row computeFeatures siteDict
        nFeatureNames site slots with
    | .error e => .error e
    | .ok f =>
      match volumeAreaInterstice_transform computeFeatures siteDict
          nFeatureNames rest with
      | .error e => .error e
      | .ok fs => .ok (f :: fs)

/-- The five statistic labels of `calc_stats` (line 453). -/
def calc_stats_names : List String := ["sum", "mean", "std", "min", "max"]

/-- `VolumeAreaInterstice.get_feature_names` (lines 440-471). -/
def volumeAreaInterstice_feature_names (calc_packing_efficiency : Bool)
    (calc_volume_area radius_type dependency_name : String) : List String :=
  let base : List String :=
    if calc_packing_efficiency then
      [(radius_type.replace "_radius" "") ++ "_atomic_packing_efficiency "
         ++ dependency_name,
       (radius_type.replace "_radius" "") ++ "_glass_packing_efficiency "
         ++ dependency_name]
    else []
  let volPrefixes : List String :=
    if calc_volume_area = "volume" ∨ calc_volume_area = "all" then
      ["fractional_volume_interstice_tetrahedra",
       "volume_interstice",
       "fractional_volume_interstice_tetrahedra_avg",
       "fractional_volume_interstice_center_v"]
    else []
  let areaPrefixes : List String :=
    if calc_volume_area = "area" ∨ calc_volume_area = "all" then
      ["fractional_area_interstice_triangle",
       "area_interstice",
       "fractional_area_interstice_triangle_avg",
       "fractional_area_interstice_center_slice_a"]
    else []
  base ++ ((volPrefixes ++ areaPrefixes).map
    (fun p => calc_stats_names.map
      (fun s => p ++ " " ++ s ++ " " ++ dependency_name))).flatten

/-- C9: for every non-empty input table (first row's positive neighbor
identifiers all resolving in `site_dict`, as the input contract requires),
`VolumeAreaInterstice.transform` raises `TypeError` on the first atom row:
the `PackingOfSite` construction at line 339 passes the keywords
`calc_volume_area` and `calc_packing_efficiency`, which
`PackingOfSite.__init__` (parameters `site`, `radii`, `radius_type`) does
not accept — so no feature row, including the zero-vector fallback of lines
343-344, is ever emitted. -/
theorem volumeAreaInterstice_transform_first_row_typeError
    (computeFeatures : SiteRec → List SiteRec → Except PyErr (List ℚ))
    (siteDict : Int → Option SiteRec) (nFeatureNames : Nat)
    (site : SiteRec) (slots : List Int) (rest : List (SiteRec × List Int))
    (h : ∃ nbrs, resolve_neighbors siteDict slots = .ok nbrs) :
    volumeAreaInterstice_transform computeFeatures siteDict nFeatureNames
      ((site, slots) :: rest) = .error .typeError := by
  obtain ⟨nbrs, hn⟩ := h
  have hk : keywords_accepted packingOfSite_init_keywords
      volumeAreaInterstice_call_keywords = false := by decide
  simp [volumeAreaInterstice_transform, volumeAreaInterstice_transform_row,
    hn, hk]

/-- Witness for C9 at a concrete input: a single atom row with no valid
neighbor slot. -/
theorem volumeAreaInterstice_transform_first_row_typeError_witness :
    (∃ nbrs, resolve_neighbors (fun _ => none) [0, -1] = .ok nbrs) ∧
    volumeAreaInterstice_transform (fun _ _ => .ok []) (fun _ => none) 42
      [(⟨⟨0, 0, 0⟩, 1⟩, [0, -1])] = .error .typeError := by
  have h : ∃ nbrs, resolve_neighbors (fun _ => none) [0, -1] = .ok nbrs :=
    ⟨[], by decide⟩
  exact ⟨h,
    volumeAreaInterstice_transform_first_row_typeError _ _ 42 _ _ [] h⟩

/-- C1: the claimed behavior — a zero feature vector of the declared width
for an atom with fewer than 4 valid neighbors, with the batch continuing —
never happens: at a one-row table whose atom has 2 valid neighbors, the code
raises `TypeError` at the `PackingOfSite` construction (line 339), which
precedes the neighbor-count guard (line 343), instead of emitting the
zero vector of length `len(get_feature_names())` = 42. -/
theorem volumeAreaInterstice_zero_vector_fallback_unreachable :
    (volumeAreaInterstice_feature_names true "all" "miracle_radius"
      "voro").length = 42 ∧
    volumeAreaInterstice_transform (fun _ _ => .ok [])
      (fun i => some ⟨⟨(i : ℚ), 0, 0⟩, 1⟩) 42
      [(⟨⟨0, 0, 0⟩, 1⟩, [1, 2, 0, 0])] = .error .typeError ∧
    volumeAreaInterstice_transform (fun _ _ => .ok [])
      (fun i => some ⟨⟨(i : ℚ), 0, 0⟩, 1⟩) 42
      [(⟨⟨0, 0, 0⟩, 1⟩, [1, 2, 0, 0])] ≠
      .ok [List.replicate 42 (0 : ℚ)] := by
  refine ⟨?_, by decide, by decide⟩
  simp [volumeAreaInterstice_feature_names, calc_stats_names]

/-- A concrete `site_dict` with four neighbor atoms on a common line. -/
def degenerate_site_dict : Int → Option SiteRec := fun i =>
  if i = 1 then some ⟨⟨1, 0, 0⟩, 1⟩
  else if i = 2 then some ⟨⟨2, 0, 0⟩, 1⟩
  else if i = 3 then some ⟨⟨3, 0, 0⟩, 1⟩
  else if i = 4 then some ⟨⟨4, 0, 0⟩, 1⟩
  else none

/-- C2 counterexample: an atom with 4 valid neighbors whose coordinates are
colinear (hence coplanar — the 3-D hull is ill-defined) does not receive a
zero feature vector with the batch continuing: the whole transform aborts
with `TypeError` at that atom. -/
theorem degenerate_neighbors_abort_batch :
    resolve_neighbors degenerate_site_dict [1, 2, 3, 4] =
      .ok [⟨⟨1, 0, 0⟩, 1⟩, ⟨⟨2, 0, 0⟩, 1⟩, ⟨⟨3, 0, 0⟩, 1⟩,
           ⟨⟨4, 0, 0⟩, 1⟩] ∧
    coplanar ⟨1, 0, 0⟩ ⟨2, 0, 0⟩ ⟨3, 0, 0⟩ ⟨4, 0, 0⟩ ∧
    volumeAreaInterstice_transform (fun _ _ => .ok [])
      degenerate_site_dict 42
      [(⟨⟨0, 0, 0⟩, 1⟩, [1, 2, 3, 4])] = .error .typeError := by
  have hres : resolve_neighbors degenerate_site_dict [1, 2, 3, 4] =
      .ok [⟨⟨1, 0, 0⟩, 1⟩, ⟨⟨2, 0, 0⟩, 1⟩, ⟨⟨3, 0, 0⟩, 1⟩,
           ⟨⟨4, 0, 0⟩, 1⟩] := by rfl
  have hk : keywords_accepted packingOfSite_init_keywords
      volumeAreaInterstice_call_keywords = false := by decide
  refine ⟨hres, ?_, ?_⟩
  · show det3 _ _ _ = 0
    norm_num [det3, vsub]
  · simp [volumeAreaInterstice_transform, volumeAreaInterstice_transform_row,
      hres, hk]

/-- C2 (amended): an atom with a degenerate neighbor coordinate set is not
recovered locally — neither `PackingOfSite.convex_hull` (lines 53-56) nor
`VolumeAreaInterstice.transform` contains a geometry-failure handler, and the
run aborts at that atom: for any atom row with at least 4 resolved neighbors
(degenerate or not), `transform` raises `TypeError` at the `PackingOfSite`
construction before any hull is built, and in particular never emits the
zero-vector row for that atom. -/
theorem volumeAreaInterstice_no_geometry_failure_handler
    (computeFeatures : SiteRec → List SiteRec → Except PyErr (List ℚ))
    (siteDict : Int → Option SiteRec) (nFeatureNames : Nat)
    (site : SiteRec) (slots : List Int) (rest : List (SiteRec × List Int))
    (nbrs : List SiteRec)
    (hres : resolve_neighbors siteDict slots = .ok nbrs)
    (_h4 : 4 ≤ nbrs.length) :
    volumeAreaInterstice_transform computeFeatures siteDict nFeatureNames
        ((site, slots) :: rest) = .error .typeError ∧
    ∀ rows : List (List ℚ),
      volumeAreaInterstice_transform computeFeatures siteDict nFeatureNames
        ((site, slots) :: rest) ≠ .ok rows := by
  have hk : keywords_accepted packingOfSite_init_keywords
      volumeAreaInterstice_call_keywords = false := by decide
  constructor
  · simp [volumeAreaInterstice_transform, volumeAreaInterstice_transform_row,
      hres, hk]
  · intro rows
    simp [volumeAreaInterstice_transform, volumeAreaInterstice_transform_row,
      hres, hk]

/-- Witness for the amended C2 at the concrete colinear configuration. -/
theorem volumeAreaInterstice_no_geometry_failure_handler_witness :
    volumeAreaInterstice_transform (fun _ _ => .ok [])
      degenerate_site_dict 42
      [(⟨⟨0, 0, 0⟩, 1⟩, [1, 2, 3, 4])] = .error .typeError := by
  exact (volumeAreaInterstice_no_geometry_failure_handler _ _ 42 _ _ []
    [⟨⟨1, 0, 0⟩, 1⟩, ⟨⟨2, 0, 0⟩, 1⟩, ⟨⟨3, 0, 0⟩, 1⟩, ⟨⟨4, 0, 0⟩, 1⟩]
    (by rfl) (by decide)).1

/-! ## `PackingOfSite.glass_packing_efficiency` (lines 211-224) -/

/-- The type identifier and the neighbor types of one atom, as needed by
`PackingOfSite.glass_packing_efficiency`. -/
structure SiteModel where
  typ : Nat
  neighborTypes : List Nat
deriving DecidableEq, Repr

/-- Modelled from the spec: `Site.cn` (class `amlearn.data.site.Site`, absent
from src/) — the coordination number is the count of the atom's geometric
neighbors. -/
def SiteModel.cn (s : SiteModel) : Nat := s.neighborTypes.length

/-- First-occurrence deduplication (the key order of a Python dict filled
while iterating the neighbor list). -/
def dedupFirst (seen : List Nat) : List Nat → List Nat
  | [] => []
  | t :: ts =>
    if t ∈ seen then dedupFirst seen ts
    else t :: dedupFirst (t :: seen) ts

/-- Modelled from the spec: `Site.nn_type_dict` (class
`amlearn.data.site.Site`, absent from src/) — the distinct neighbor types
with their multiplicities. -/
def SiteModel.nn_type_dict (s : SiteModel) : List (Nat × Nat) :=
  (dedupFirst [] s.neighborTypes).map
    (fun t => (t, s.neighborTypes.count t))

/-- The `ideal_ratio_` dictionary of
`PackingOfSite.glass_packing_efficiency` (lines 212-217), keys 3..24. -/
def ideal_ratio_ (cn : Nat) : Option ℚ :=
  match cn with
  | 3 => some (154701 / 1000000)
  | 4 => some (224745 / 1000000)
  | 5 => some (361654 / 1000000)
  | 6 => some (414214 / 1000000)
  | 7 => some (518145 / 1000000)
  | 8 => some (616517 / 1000000)
  | 9 => some (709914 / 1000000)
  | 10 => some (798907 / 1000000)
  | 11 => some (884003 / 1000000)
  | 12 => some (902113 / 1000000)
  | 13 => some (976006 / 1000000)
  | 14 => some (104733 / 100000)
  | 15 => some (111632 / 100000)
  | 16 => some (118318 / 100000)
  | 17 => some (12481 / 10000)
  | 18 => some (131123 / 100000)
  | 19 => some (137271 / 100000)
  | 20 => some (143267 / 100000)
  | 21 => some (149119 / 100000)
  | 22 => some (15484 / 10000)
  | 23 => some (160436 / 100000)
  | 24 => some (165915 / 100000)
  | _ => none

/-- The accumulation loop of lines 219-221:
`for t, n in nn_type_dict: r += radii[str(t)][radius_type] * n`;
a missing radius entry raises `KeyError`.  `radii` models
`self.radii[str(t)][self.radius_type]` for the configured radius type. -/
def radius_weight_sum (radii : Nat → Option ℚ) :
    List (Nat × Nat) → ℚ → Except PyErr ℚ
  | [], acc => .ok acc
  | tn :: rest, acc =>
    match radii tn.1 with
    | none => .error .keyError
    | some rt => radius_weight_sum radii rest (acc + rt * (tn.2 : ℚ))

/-- `PackingOfSite.glass_packing_efficiency` (lines 211-224): the type
accumulation loop, then `r = r / cn` (`ZeroDivisionError` on `cn = 0`), then
the center radius lookup, the division by `r`, the `ideal_ratio_[cn]` lookup
(`KeyError` outside 3..24) and the final subtraction, in Python's
evaluation order. -/
def glass_packing_efficiency (radii : Nat → Option ℚ) (s : SiteModel) :
    Except PyErr ℚ :=
  match radius_weight_sum radii s.nn_type_dict 0 with
  | .error e => .error e
  | .ok r0 =>
    match pyDiv r0 (s.cn : ℚ) with
    | .error e => .error e
    | .ok r =>
      match radii s.typ with
      | none => .error .keyError
      | some rc =>
        match pyDiv rc r with
        | .error e => .error e
        | .ok q =>
          match ideal_ratio_ s.cn with
          | none => .error .keyError
          | some ir => .ok (q - ir)

/-- The claim's weighted radius: the sum over distinct neighbor types of
`r_type * count_of_type / coordination_number`. -/
def specWeightedRadius (radii : Nat → Option ℚ) (s : SiteModel) : ℚ :=
  (s.nn_type_dict.map
    (fun tn => (radii tn.1).getD 0 * (tn.2 : ℚ) / (s.cn : ℚ))).sum

lemma radius_weight_sum_ok (radii : Nat → Option ℚ) (l : List (Nat × Nat))
    (acc : ℚ) (h : ∀ tn ∈ l, (radii tn.1).isSome) :
    radius_weight_sum radii l acc =
      .ok (acc + (l.map (fun tn => (radii tn.1).getD 0 * (tn.2 : ℚ))).sum) := by
  induction l generalizing acc with
  | nil => simp [radius_weight_sum]
  | cons tn rest ih =>
    obtain ⟨rt, hrt⟩ := Option.isSome_iff_exists.mp (h tn (by simp))
    simp only [radius_weight_sum, hrt]
    rw [ih _ (fun x hx => h x (by simp [hx]))]
    simp [hrt]
    ring

lemma sum_map_div {α : Type} (l : List α) (f : α → ℚ) (c : ℚ) :
    (l.map (fun x => f x / c)).sum = (l.map f).sum / c := by
  induction l with
  | nil => simp
  | cons x xs ih => simp [ih, add_div]

lemma dedupFirst_subset (seen l : List Nat) (t : Nat)
    (h : t ∈ dedupFirst seen l) : t ∈ l := by
  induction l generalizing seen with
  | nil => simp [dedupFirst] at h
  | cons a as ih =>
    rw [dedupFirst] at h
    by_cases ha : a ∈ seen
    · simp [ha] at h
      exact List.mem_cons_of_mem _ (ih _ h)
    · simp [ha] at h
      rcases h with h | h
      · simp [h]
      · exact List.mem_cons_of_mem _ (ih _ h)

lemma ideal_ratio_eq_none (cn : Nat) (h : ¬(3 ≤ cn ∧ cn ≤ 24)) :
    ideal_ratio_ cn = none := by
  obtain _|_|_|_|_|_|_|_|_|_|_|_|_|_|_|_|_|_|_|_|_|_|_|_|_|cn := cn
  all_goals first
    | rfl
    | (exfalso; exact h (by omega))

/-- C3 (amended): for every atom with coordination number in [3,24], all
referenced radius entries present and a nonzero type-weighted neighbor
radius, `glass_packing_efficiency` returns
`r_center / (Σ over distinct neighbor types of r_type * count / cn) -
ideal_ratio[cn]`; when the weighted radius is zero it raises
`ZeroDivisionError`; for every atom with coordination number outside [3,24]
it raises rather than silently extrapolating. -/
theorem glass_packing_efficiency_spec (radii : Nat → Option ℚ)
    (s : SiteModel) :
    (3 ≤ s.cn → s.cn ≤ 24 →
      (∀ t ∈ s.typ :: s.neighborTypes, (radii t).isSome) →
      specWeightedRadius radii s ≠ 0 →
      ∃ rc ir, radii s.typ = some rc ∧ ideal_ratio_ s.cn = some ir ∧
        glass_packing_efficiency radii s =
          .ok (rc / specWeightedRadius radii s - ir)) ∧
    (¬(3 ≤ s.cn ∧ s.cn ≤ 24) →
      ∃ e, glass_packing_efficiency radii s = .error e) := by
  constructor
  · intro h3 h24 hsome hnz
    obtain ⟨rc, hrc⟩ := Option.isSome_iff_exists.mp (hsome s.typ (by simp))
    have hir : ∃ ir, ideal_ratio_ s.cn = some ir := by
      interval_cases h : s.cn <;> exact ⟨_, rfl⟩
    obtain ⟨ir, hirv⟩ := hir
    have hnn : ∀ tn ∈ s.nn_type_dict, (radii tn.1).isSome := by
      intro tn htn
      apply hsome
      apply List.mem_cons_of_mem
      rcases List.mem_map.mp htn with ⟨t, ht, rfl⟩
      exact dedupFirst_subset _ _ _ ht
    have hsum := radius_weight_sum_ok radii s.nn_type_dict 0 hnn
    have hcn0 : (s.cn : ℚ) ≠ 0 := by
      simp only [ne_eq, Nat.cast_eq_zero]
      omega
    have hspec : specWeightedRadius radii s =
        (s.nn_type_dict.map
          (fun tn => (radii tn.1).getD 0 * (tn.2 : ℚ))).sum / (s.cn : ℚ) := by
      rw [specWeightedRadius, sum_map_div]
    have hnz' : (s.nn_type_dict.map
        (fun tn => (radii tn.1).getD 0 * (tn.2 : ℚ))).sum / (s.cn : ℚ) ≠ 0 := by
      rw [← hspec]; exact hnz
    refine ⟨rc, ir, hrc, hirv, ?_⟩
    simp only [glass_packing_efficiency, hsum, zero_add, pyDiv,
      if_neg hcn0, hrc, if_neg hnz', hirv, hspec]
  · intro hout
    rcases hrs : radius_weight_sum radii s.nn_type_dict 0 with e | r0
    · exact ⟨e, by simp only [glass_packing_efficiency, hrs]⟩
    · rcases hdiv : pyDiv r0 (s.cn : ℚ) with e | r
      · exact ⟨e, by simp only [glass_packing_efficiency, hrs, hdiv]⟩
      · rcases hrc : radii s.typ with _ | rc
        · exact ⟨PyErr.keyError,
            by simp only [glass_packing_efficiency, hrs, hdiv, hrc]⟩
        · rcases hq : pyDiv rc r with e | q
          · exact ⟨e,
              by simp only [glass_packing_efficiency, hrs, hdiv, hrc, hq]⟩
          · exact ⟨PyErr.keyError,
              by simp only [glass_packing_efficiency, hrs, hdiv, hrc, hq,
                ideal_ratio_eq_none s.cn hout]⟩

/-- Witness for the amended C3: an atom of type 1 with neighbors of types
2, 3, 4, radius of type `t` equal to `t`; and an atom with no neighbors
(coordination number 0, outside [3,24]). -/
theorem glass_packing_efficiency_spec_witness :
    (∃ rc ir, (fun t => some (t : ℚ)) 1 = some rc ∧
      ideal_ratio_ (⟨1, [2, 3, 4]⟩ : SiteModel).cn = some ir ∧
      glass_packing_efficiency (fun t => some (t : ℚ)) ⟨1, [2, 3, 4]⟩ =
        .ok (rc / specWeightedRadius (fun t => some (t : ℚ))
          ⟨1, [2, 3, 4]⟩ - ir)) ∧
    (∃ e, glass_packing_efficiency (fun t => some (t : ℚ)) ⟨1, []⟩ =
      .error e) := by
  constructor
  · apply (glass_packing_efficiency_spec (fun t => some (t : ℚ))
      ⟨1, [2, 3, 4]⟩).1
    · decide
    · decide
    · intro t _
      simp
    · have h1 : (⟨1, [2, 3, 4]⟩ : SiteModel).nn_type_dict =
          [(2, 1), (3, 1), (4, 1)] := rfl
      have h2 : (⟨1, [2, 3, 4]⟩ : SiteModel).cn = 3 := rfl
      rw [specWeightedRadius, h1, h2]
      norm_num
  · apply (glass_packing_efficiency_spec (fun t => some (t : ℚ)) ⟨1, []⟩).2
    decide

/-- C3 counterexample: an atom with coordination number 3 (within [3,24])
and every referenced radius entry present — but all radii equal to 0 — makes
`glass_packing_efficiency` raise `ZeroDivisionError` instead of returning
the claimed value. -/
theorem glass_packing_efficiency_zero_radii_raise :
    (3 ≤ (⟨1, [2, 3, 4]⟩ : SiteModel).cn ∧
      (⟨1, [2, 3, 4]⟩ : SiteModel).cn ≤ 24) ∧
    (∀ t ∈ (⟨1, [2, 3, 4]⟩ : SiteModel).typ ::
        (⟨1, [2, 3, 4]⟩ : SiteModel).neighborTypes,
      ((fun _ => some (0 : ℚ)) t).isSome) ∧
    glass_packing_efficiency (fun _ => some (0 : ℚ)) ⟨1, [2, 3, 4]⟩ =
      .error .zeroDivisionError := by
  refine ⟨by decide, by intro t _; simp, ?_⟩
  have h1 : (⟨1, [2, 3, 4]⟩ : SiteModel).nn_type_dict =
      [(2, 1), (3, 1), (4, 1)] := rfl
  have hsum := radius_weight_sum_ok (fun _ => some (0 : ℚ))
    [(2, 1), (3, 1), (4, 1)] 0 (by intro tn _; simp)
  rw [glass_packing_efficiency, h1, hsum]
  norm_num [pyDiv, SiteModel.cn]

/-! ## `PackingOfSite.combine_neighbor_solid_angles`, `cluster_packed_volume`
and `atomic_packing_efficiency` (lines 171-209)

The per-facet solid angles (`solid_angle_lists_`, computed by
`amlearn.utils.packing.solid_angle`, absent from src/) and the convex-hull
volume (`scipy.spatial.qhull.ConvexHull`, external) enter as inputs. -/

/-- One `neighbors_solid_angle[idx] += solid_angle` update (line 180).
Hull vertex indices always lie below the neighbor count, so the
out-of-range case never occurs in the source. -/
def bump (acc : List ℚ) (idx : Nat) (sa : ℚ) : List ℚ :=
  acc.set idx (acc.getD idx 0 + sa)

/-- `PackingOfSite.combine_neighbor_solid_angles` (lines 171-182): starting
from a zero list of length `len(site.neighbors)`, every facet adds each of
its three per-vertex solid angles to that vertex's accumulator. -/
def combine_neighbor_solid_angles (nNeighbors : Nat)
    (simplices : List (List Nat)) (solidAngleLists : List (List ℚ)) :
    List ℚ :=
  (simplices.zip solidAngleLists).foldl
    (fun acc fs => (fs.1.zip fs.2).foldl (fun a p => bump a p.1 p.2) acc)
    (List.replicate nNeighbors 0)

/-- The inner loop of `cluster_packed_volume` (lines 199-205): neighbors
with zero accumulated solid angle are skipped; otherwise
`solid_angle * 1/3 * r^3` is added, with a `KeyError` on a missing radius. -/
def cluster_volume_loop (radii : Nat → Option ℚ) :
    List (Nat × ℚ) → ℚ → Except PyErr ℚ
  | [], acc => .ok acc
  | p :: rest, acc =>
    if p.2 = 0 then cluster_volume_loop radii rest acc
    else
      match radii p.1 with
      | none => .error .keyError
      | some rt => cluster_volume_loop radii rest (acc + p.2 * (1 / 3) * rt ^ 3)

/-- `PackingOfSite.cluster_packed_volume` (lines 184-206): the center sphere
volume `4/3*pi*r_center^3` plus the per-neighbor solid-angle cones. -/
def cluster_packed_volume (radii : Nat → Option ℚ) (centerType : Nat)
    (neighborTypes : List Nat) (neighborsSolidAngle : List ℚ) :
    Except PyErr ℚ :=
  match radii centerType with
  | none => .error .keyError
  | some rc =>
    cluster_volume_loop radii (neighborTypes.zip neighborsSolidAngle)
      (4 / 3 * mathPi * rc ^ 3)

/-- `PackingOfSite.atomic_packing_efficiency` (lines 208-209):
`cluster_packed_volume() / convex_hull().volume`. -/
def atomic_packing_efficiency (radii : Nat → Option ℚ) (centerType : Nat)
    (neighborTypes : List Nat) (neighborsSolidAngle : List ℚ)
    (hullVolume : ℚ) : Except PyErr ℚ :=
  match cluster_packed_volume radii centerType neighborTypes
      neighborsSolidAngle with
  | .error e => .error e
  | .ok pv => pyDiv pv hullVolume

/-- The claim's accumulated solid angle of neighbor `j`: the sum, over all
facets, of the facet's per-vertex solid angles at positions carrying
index `j`. -/
def specAccumulatedSolidAngle (simplices : List (List Nat))
    (solidAngleLists : List (List ℚ)) (j : Nat) : ℚ :=
  ((simplices.zip solidAngleLists).map (fun fs =>
    (((fs.1.zip fs.2).filter (fun p => p.1 == j)).map
      (fun p => p.2)).sum)).sum

/-- The claim's cluster packed volume: `4/3*pi*r_center^3` plus, for each
neighbor with nonzero accumulated solid angle, that angle divided by 3
times the neighbor radius cubed. -/
def specClusterPackedVolume (radii : Nat → Option ℚ) (centerType : Nat)
    (neighborTypes : List Nat) (neighborsSolidAngle : List ℚ) : ℚ :=
  4 / 3 * mathPi * ((radii centerType).getD 0) ^ 3 +
  (((neighborTypes.zip neighborsSolidAngle).filter
      (fun p => decide (p.2 ≠ 0))).map
    (fun p => p.2 / 3 * ((radii p.1).getD 0) ^ 3)).sum

lemma bump_length (acc : List ℚ) (i : Nat) (v : ℚ) :
    (bump acc i v).length = acc.length := by
  simp [bump]

lemma getD_bump (acc : List ℚ) (i j : Nat) (v : ℚ) (hj : j < acc.length) :
    (bump acc i v).getD j 0 = acc.getD j 0 + if i = j then v else 0 := by
  induction acc generalizing i j with
  | nil => simp at hj
  | cons a as ih =>
    cases i with
    | zero =>
      cases j with
      | zero => simp [bump]
      | succ j => simp [bump]
    | succ i =>
      cases j with
      | zero => simp [bump]
      | succ j =>
        have hb : bump (a :: as) (i + 1) v = a :: bump as i v := by
          simp [bump]
        rw [hb, List.getD_cons_succ, List.getD_cons_succ,
          ih i j (by simpa using hj)]
        simp

lemma foldl_bump_length (ps : List (Nat × ℚ)) (acc : List ℚ) :
    (ps.foldl (fun a p => bump a p.1 p.2) acc).length = acc.length := by
  induction ps generalizing acc with
  | nil => rfl
  | cons p ps ih => rw [List.foldl_cons, ih, bump_length]

lemma foldl_bump_getD (ps : List (Nat × ℚ)) (acc : List ℚ) (j : Nat)
    (hj : j < acc.length) :
    (ps.foldl (fun a p => bump a p.1 p.2) acc).getD j 0 =
      acc.getD j 0 +
        ((ps.filter (fun p => p.1 == j)).map (fun p => p.2)).sum := by
  induction ps generalizing acc with
  | nil => simp
  | cons p ps ih =>
    rw [List.foldl_cons, ih _ (by rw [bump_length]; exact hj),
      getD_bump _ _ _ _ hj]
    by_cases h : p.1 = j
    · simp [List.filter_cons, h]
      ring
    · simp [List.filter_cons, h]

lemma foldl_facets_length (fs : List (List Nat × List ℚ)) (acc : List ℚ) :
    (fs.foldl (fun a f =>
      (f.1.zip f.2).foldl (fun a p => bump a p.1 p.2) a) acc).length =
    acc.length := by
  induction fs generalizing acc with
  | nil => rfl
  | cons f fs ih => rw [List.foldl_cons, ih, foldl_bump_length]

lemma foldl_facets_getD (fs : List (List Nat × List ℚ)) (acc : List ℚ)
    (j : Nat) (hj : j < acc.length) :
    (fs.foldl (fun a f =>
        (f.1.zip f.2).foldl (fun a p => bump a p.1 p.2) a) acc).getD j 0 =
      acc.getD j 0 + (fs.map (fun f =>
        (((f.1.zip f.2).filter (fun p => p.1 == j)).map
          (fun p => p.2)).sum)).sum := by
  induction fs generalizing acc with
  | nil => simp
  | cons f fs ih =>
    rw [List.foldl_cons,
      ih _ (by rw [foldl_bump_length]; exact hj),
      foldl_bump_getD _ _ _ hj, List.map_cons, List.sum_cons]
    ring

lemma cluster_volume_loop_ok (radii : Nat → Option ℚ)
    (l : List (Nat × ℚ)) (acc : ℚ)
    (h : ∀ p ∈ l, p.2 ≠ 0 → (radii p.1).isSome) :
    cluster_volume_loop radii l acc =
      .ok (acc + ((l.filter (fun p => decide (p.2 ≠ 0))).map
        (fun p => p.2 / 3 * ((radii p.1).getD 0) ^ 3)).sum) := by
  induction l generalizing acc with
  | nil => simp [cluster_volume_loop]
  | cons p rest ih =>
    by_cases hz : p.2 = 0
    · rw [cluster_volume_loop, if_pos hz,
        ih _ (fun x hx => h x (by simp [hx]))]
      simp [List.filter_cons, hz]
    · obtain ⟨rt, hrt⟩ := Option.isSome_iff_exists.mp (h p (by simp) hz)
      simp only [cluster_volume_loop, if_neg hz, hrt]
      rw [ih _ (fun x hx => h x (by simp [hx]))]
      simp [List.filter_cons, hz, hrt]
      ring

/-- C4: for every atom with a well-defined hull (nonzero hull volume), the
accumulated per-neighbor solid angle is the sum of that neighbor's
per-vertex solid angles over all adjoining facets; the cluster packed
volume equals `4/3*pi*r_center^3` plus, for each neighbor with nonzero
accumulated solid angle, that angle divided by 3 times the neighbor radius
cubed (zero-angle neighbors contribute nothing); and
`atomic_packing_efficiency` is this packed volume divided by the hull
volume. -/
theorem atomic_packing_efficiency_spec (radii : Nat → Option ℚ)
    (centerType nNeighbors : Nat) (neighborTypes : List Nat)
    (simplices : List (List Nat)) (solidAngleLists : List (List ℚ))
    (hullVolume : ℚ)
    (hc : (radii centerType).isSome)
    (hn : ∀ p ∈ neighborTypes.zip
        (combine_neighbor_solid_angles nNeighbors simplices solidAngleLists),
      p.2 ≠ 0 → (radii p.1).isSome)
    (hv : hullVolume ≠ 0) :
    (∀ j < nNeighbors,
      (combine_neighbor_solid_angles nNeighbors simplices
        solidAngleLists).getD j 0 =
        specAccumulatedSolidAngle simplices solidAngleLists j) ∧
    cluster_packed_volume radii centerType neighborTypes
        (combine_neighbor_solid_angles nNeighbors simplices solidAngleLists) =
      .ok (specClusterPackedVolume radii centerType neighborTypes
        (combine_neighbor_solid_angles nNeighbors simplices
          solidAngleLists)) ∧
    atomic_packing_efficiency radii centerType neighborTypes
        (combine_neighbor_solid_angles nNeighbors simplices solidAngleLists)
        hullVolume =
      .ok (specClusterPackedVolume radii centerType neighborTypes
        (combine_neighbor_solid_angles nNeighbors simplices solidAngleLists)
          / hullVolume) := by
  obtain ⟨rc, hrc⟩ := Option.isSome_iff_exists.mp hc
  have hcl : cluster_packed_volume radii centerType neighborTypes
      (combine_neighbor_solid_angles nNeighbors simplices solidAngleLists) =
      .ok (specClusterPackedVolume radii centerType neighborTypes
        (combine_neighbor_solid_angles nNeighbors simplices
          solidAngleLists)) := by
    simp only [cluster_packed_volume, hrc]
    rw [cluster_volume_loop_ok radii _ _ hn, specClusterPackedVolume, hrc]
    simp
  refine ⟨?_, hcl, ?_⟩
  · intro j hj
    rw [combine_neighbor_solid_angles,
      foldl_facets_getD _ _ _ (by simpa using hj),
      specAccumulatedSolidAngle]
    simp
  · simp only [atomic_packing_efficiency, hcl, pyDiv, if_neg hv]

/-- Witness for C4 at a concrete configuration: 2 neighbors, one facet with
vertex indices [0,1,0] and solid angles [2,0,3], unit radii, hull volume 2. -/
theorem atomic_packing_efficiency_spec_witness :
    ((fun _ => some (1 : ℚ)) 5).isSome = true ∧
    atomic_packing_efficiency (fun _ => some (1 : ℚ)) 5 [7, 8]
        (combine_neighbor_solid_angles 2 [[0, 1, 0]] [[2, 0, 3]]) 2 =
      .ok (specClusterPackedVolume (fun _ => some (1 : ℚ)) 5 [7, 8]
        (combine_neighbor_solid_angles 2 [[0, 1, 0]] [[2, 0, 3]]) / 2) := by
  refine ⟨by simp, ?_⟩
  exact (atomic_packing_efficiency_spec (fun _ => some (1 : ℚ)) 5 2 [7, 8]
    [[0, 1, 0]] [[2, 0, 3]] 2 (by simp) (by intro p _ _; simp)
    (by norm_num)).2.2

/-! ## `PackingOfSite.analyze_hull_facet_interstice` (lines 110-136)

Per facet the triangular angles (`triangular_angle_lists_`, computed by
`amlearn.utils.packing.triangular_angle`, absent from src/) enter as
inputs; a facet is `(vertex indices, vertex angles)`.  The facet area is
`triangle_area(*surface_coords)` (line 129; `amlearn.utils.packing`,
absent from src/), modelled as an abstract function of the surface
coordinates.  Line 115 binds `nn_coords = np.array(self.site.nn_coords)`
— the method is NOT called, unlike `self.site.nn_coords()` at lines 55,
70 and 92, so `np.array` receives a bound method and yields a
0-dimensional object array; that binding is part of the embedding. -/

/-- A numpy array as produced by `np.array(...)`: either a proper array of
3-D points, or the 0-dimensional object array that `np.array` yields when
its argument is a non-sequence such as a bound method. -/
inductive NpArray where
  | zeroDim
  | points (cs : List Vec3)
deriving DecidableEq, Repr

/-- Element gathering for the fancy indexing `nn_coords[indices]` on a
proper 1-axis array: `IndexError` on an out-of-range index. -/
def npGather (cs : List Vec3) : List Nat → Except PyErr (List Vec3)
  | [] => .ok []
  | i :: rest =>
    match cs[i]? with
    | none => .error .indexError
    | some c =>
      match npGather cs rest with
      | .error e => .error e
      | .ok tl => .ok (c :: tl)

/-- Fancy indexing `arr[indices]` (line 121): on a 0-dimensional array
numpy raises `IndexError` (too many indices). -/
def npIndex (a : NpArray) (idxs : List Nat) : Except PyErr (List Vec3) :=
  match a with
  | .zeroDim => .error .indexError
  | .points cs => npGather cs idxs

/-- Line 115: `nn_coords = np.array(self.site.nn_coords)`.  The missing
call parentheses make this the 0-dimensional object array over the bound
method, not the neighbor coordinate matrix. -/
def analyze_nn_coords : NpArray := NpArray.zeroDim

/-- The inner loop of `analyze_hull_facet_interstice` (lines 124-127): the
packed area of one facet, accumulating `tri_angle / 2 * r^2` over the
facet's vertices; the radius is looked up by the neighbor's type
(`self.site.neighbors[idx].type`), with `IndexError` on an out-of-range
vertex index and `KeyError` on a missing radius entry. -/
def facet_packed_area (radii : Nat → Option ℚ) (neighborTypes : List Nat) :
    List (Nat × ℚ) → ℚ → Except PyErr ℚ
  | [], acc => .ok acc
  | ia :: rest, acc =>
    match neighborTypes[ia.1]? with
    | none => .error .indexError
    | some t =>
      match radii t with
      | none => .error .keyError
      | some r =>
        facet_packed_area radii neighborTypes rest (acc + ia.2 / 2 * r ^ 2)

/-- The loop of `PackingOfSite.analyze_hull_facet_interstice` (lines
118-133), in source order per facet: `surface_coords = nn_coords[...]`
(line 121), the packed-area loop (lines 124-127), the facet area
`triangle_area(*surface_coords)` (line 129) appended to `area_list_`, and
`1 - packed_area/area` appended to `area_interstice_list_` (line 133; the
source comment at line 132 stresses the value is a percent, not an
interstice area). -/
def analyze_hull_facet_interstice (radii : Nat → Option ℚ)
    (neighborTypes : List Nat) (nnCoords : NpArray)
    (triangleArea : List Vec3 → ℚ) :
    List (List Nat × List ℚ) → Except PyErr (List ℚ × List ℚ)
  | [] => .ok ([], [])
  | fa :: rest =>
    match npIndex nnCoords fa.1 with
    | .error e => .error e
    | .ok surfaceCoords =>
      match facet_packed_area radii neighborTypes (fa.1.zip fa.2) 0 with
      | .error e => .error e
      | .ok packed =>
        let area := triangleArea surfaceCoords
        if area = 0 then .error .zeroDivisionError
        else
          match analyze_hull_facet_interstice radii neighborTypes nnCoords
              triangleArea rest with
          | .error e => .error e
          | .ok lists => .ok (area :: lists.1, (1 - packed / area) :: lists.2)

/-- The claim's packed facet area: the sum over the facet's vertices of
`(triangular_angle / 2) * radius^2`. -/
def specFacetPackedArea (radii : Nat → Option ℚ) (neighborTypes : List Nat)
    (surf : List Nat) (angles : List ℚ) : ℚ :=
  ((surf.zip angles).map
    (fun ia => ia.2 / 2 * ((radii (neighborTypes.getD ia.1 0)).getD 0) ^ 2)).sum

lemma facet_packed_area_ok (radii : Nat → Option ℚ) (nts : List Nat)
    (ps : List (Nat × ℚ)) (acc : ℚ)
    (h : ∀ ia ∈ ps, ∃ t, nts[ia.1]? = some t ∧ (radii t).isSome) :
    facet_packed_area radii nts ps acc =
      .ok (acc + (ps.map
        (fun ia => ia.2 / 2 * ((radii (nts.getD ia.1 0)).getD 0) ^ 2)).sum) := by
  induction ps generalizing acc with
  | nil => simp [facet_packed_area]
  | cons ia rest ih =>
    obtain ⟨t, ht, hs⟩ := h ia (by simp)
    obtain ⟨r, hr⟩ := Option.isSome_iff_exists.mp hs
    simp only [facet_packed_area, ht, hr]
    rw [ih _ (fun x hx => h x (by simp [hx]))]
    have hgd : nts.getD ia.1 0 = t := by
      rw [List.getD_eq_getElem?_getD, ht]; rfl
    rw [List.map_cons, List.sum_cons, hgd, hr]
    simp only [Option.getD_some, Except.ok.injEq]
    ring

/-- The surface coordinates gathered from a proper coordinate array. -/
def specSurfaceCoords (cs : List Vec3) (surf : List Nat) : List Vec3 :=
  surf.map (fun i => cs.getD i ⟨0, 0, 0⟩)

lemma npGather_ok (cs : List Vec3) (idxs : List Nat)
    (h : ∀ i ∈ idxs, i < cs.length) :
    npGather cs idxs = .ok (specSurfaceCoords cs idxs) := by
  induction idxs with
  | nil => rfl
  | cons i rest ih =>
    have hi : i < cs.length := h i (by simp)
    have h1 : cs[i]? = some cs[i] := List.getElem?_eq_getElem hi
    have h2 : cs.getD i ⟨0, 0, 0⟩ = cs[i] := by
      rw [List.getD_eq_getElem?_getD, h1]; rfl
    simp only [npGather, h1, ih (fun j hj => h j (by simp [hj])),
      specSurfaceCoords, List.map_cons, h2]

/-- What the loop of lines 118-133 computes once a proper coordinate array
is indexed (the `NpArray.points` branch): the claimed per-facet packed
area and interstice fraction. -/
lemma analyze_hull_facet_interstice_points_eq (radii : Nat → Option ℚ)
    (neighborTypes : List Nat) (cs : List Vec3)
    (triangleArea : List Vec3 → ℚ) (facets : List (List Nat × List ℚ))
    (h : ∀ fa ∈ facets,
      (∀ i ∈ fa.1, i < cs.length) ∧
      triangleArea (specSurfaceCoords cs fa.1) ≠ 0 ∧
      ∀ ia ∈ fa.1.zip fa.2,
        ∃ t, neighborTypes[ia.1]? = some t ∧ (radii t).isSome) :
    analyze_hull_facet_interstice radii neighborTypes (NpArray.points cs)
        triangleArea facets =
      .ok (facets.map (fun fa => triangleArea (specSurfaceCoords cs fa.1)),
        facets.map (fun fa =>
          1 - specFacetPackedArea radii neighborTypes fa.1 fa.2
            / triangleArea (specSurfaceCoords cs fa.1))) := by
  induction facets with
  | nil => rfl
  | cons fa rest ih =>
    obtain ⟨hb, hz, hlook⟩ := h fa (by simp)
    have hgather := npGather_ok cs fa.1 hb
    have hpacked := facet_packed_area_ok radii neighborTypes
      (fa.1.zip fa.2) 0 hlook
    rw [zero_add] at hpacked
    simp only [analyze_hull_facet_interstice, npIndex, hgather, hpacked,
      if_neg hz, ih (fun x hx => h x (by simp [hx]))]
    simp [specFacetPackedArea]

/-- C5: the claimed per-facet packed area and interstice fraction are never
computed: line 115 binds `nn_coords` to the uncalled method
`self.site.nn_coords` — a 0-dimensional object array, unlike the called
`nn_coords()` of lines 55, 70 and 92 — so the indexing at line 121 raises
`IndexError` on the first facet, before the packed-area loop.  On the same
concrete input with the coordinate array actually supplied, the loop
returns exactly the claimed values, `packed = Σ angle/2 * r^2` per vertex
and the fraction `1 - packed/area`: the claim matches the dead lines
124-133, and the missing call parentheses are the slip. -/
theorem analyze_hull_facet_interstice_index_error :
    analyze_nn_coords = NpArray.zeroDim ∧
    analyze_hull_facet_interstice (fun t => some (t : ℚ)) [2, 3]
      analyze_nn_coords (fun _ => 5) [([0, 1, 0], [1, 2, 3])] =
      .error .indexError ∧
    analyze_hull_facet_interstice (fun t => some (t : ℚ)) [2, 3]
      (NpArray.points [⟨0, 0, 0⟩, ⟨1, 0, 0⟩]) (fun _ => 5)
      [([0, 1, 0], [1, 2, 3])] =
      .ok ([5], [1 - specFacetPackedArea (fun t => some (t : ℚ)) [2, 3]
        [0, 1, 0] [1, 2, 3] / 5]) := by
  refine ⟨rfl, rfl, ?_⟩
  have h := analyze_hull_facet_interstice_points_eq (fun t => some (t : ℚ))
    [2, 3] [⟨0, 0, 0⟩, ⟨1, 0, 0⟩] (fun _ => 5) [([0, 1, 0], [1, 2, 3])]
    (by
      intro fa hfa
      simp only [List.mem_singleton] at hfa
      subst hfa
      refine ⟨?_, by norm_num, ?_⟩
      · intro i hi
        fin_cases hi <;> norm_num
      · intro ia hia
        fin_cases hia <;> exact ⟨_, rfl, rfl⟩)
  simpa using h

/-! ## `CharacterMotif` (lines 603-688) -/

/-- The default `target_voro_idx` of `CharacterMotif.__init__`
(lines 616-619). -/
def default_target_voro_idx : List (List ℚ) :=
  [[0, 0, 12, 0, 0], [0, 0, 12, 4, 0]]

/-- Modelled from the spec: the Fortran routine
`voronoi_stats.character_motif` (`amlearn/featurize/featurizers/src`,
absent from src/) — "exact match against a target yields a one-hot
indicator", and, with `frank_kasper = 1`, one further polytetrahedral
indicator, "the logical OR of the two default canonical matches". -/
def character_motif (targets : List (List ℚ)) (voroIdx : List ℚ) :
    List Nat :=
  let instances := targets.map (fun t => if voroIdx = t then 1 else 0)
  instances ++ [Nat.lor (instances.getD 0 0) (instances.getD 1 0)]

/-- One row of `CharacterMotif.transform` (lines 655-668): the Fortran
output columns followed by the appended `is_120_124` column, the bitwise
OR of columns 0 and 1 (lines 664-668). -/
def characterMotif_transform_row (voroIdx : List ℚ) : List Nat :=
  let m := character_motif default_target_voro_idx voroIdx
  m ++ [Nat.lor (m.getD 0 0) (m.getD 1 0)]

/-- `CharacterMotif.get_feature_names` (lines 683-688). -/
def characterMotif_feature_names (targets : List (List ℚ)) : List String :=
  ["is <0,0,12,0,0> voro", "is <0,0,12,4,0> voro"] ++
  (targets.drop 2).map
    (fun v => String.intercalate "_" (v.map toString) ++ " voro") ++
  ["is polytetrahedral voro", "is <0,0,12,0/4,0> voro"]

/-- C6: an indicator is 1 exactly on an exact match of the corresponding
canonical target (defaults `<0,0,12,0,0>` and `<0,0,12,4,0>`), a vector
matching no target yields all-zero motif indicators, and the composite
polytetrahedral indicator (column 2, named "is polytetrahedral voro", as
well as the appended column 3, named "is <0,0,12,0/4,0> voro") equals the
logical OR of the two canonical match indicators. -/
theorem characterMotif_classification (v : List ℚ) :
    ((characterMotif_transform_row v).getD 0 0 = 1 ↔ v = [0, 0, 12, 0, 0]) ∧
    ((characterMotif_transform_row v).getD 1 0 = 1 ↔ v = [0, 0, 12, 4, 0]) ∧
    (v ≠ [0, 0, 12, 0, 0] → v ≠ [0, 0, 12, 4, 0] →
      characterMotif_transform_row v = [0, 0, 0, 0]) ∧
    (characterMotif_feature_names default_target_voro_idx)[2]? =
      some "is polytetrahedral voro" ∧
    (characterMotif_transform_row v).getD 2 0 =
      Nat.lor ((characterMotif_transform_row v).getD 0 0)
        ((characterMotif_transform_row v).getD 1 0) ∧
    (characterMotif_transform_row v).getD 3 0 =
      Nat.lor ((characterMotif_transform_row v).getD 0 0)
        ((characterMotif_transform_row v).getD 1 0) := by
  have hnames : (characterMotif_feature_names
      [[(0 : ℚ), 0, 12, 0, 0], [0, 0, 12, 4, 0]])[2]? =
      some "is polytetrahedral voro" := rfl
  have hlor00 : Nat.lor 0 0 = 0 := rfl
  have hlor10 : Nat.lor 1 0 = 1 := rfl
  have hlor01 : Nat.lor 0 1 = 1 := rfl
  by_cases h1 : v = [0, 0, 12, 0, 0] <;>
    by_cases h2 : v = [0, 0, 12, 4, 0]
  · exfalso
    rw [h1] at h2
    simp at h2
  · simp [characterMotif_transform_row, character_motif,
      default_target_voro_idx, h1, h2, hnames, hlor10]
  · simp [characterMotif_transform_row, character_motif,
      default_target_voro_idx, h1, h2, hnames, hlor01]
  · simp [characterMotif_transform_row, character_motif,
      default_target_voro_idx, h1, h2, hnames, hlor00]

/-- Witness for C6: the unrelated index `[1,2,3,4,5]` yields all-zero
motif indicators. -/
theorem characterMotif_classification_witness :
    characterMotif_transform_row [1, 2, 3, 4, 5] = [0, 0, 0, 0] := by
  exact (characterMotif_classification [1, 2, 3, 4, 5]).2.2.1
    (by intro h; simp at h) (by intro h; simp at h)

/-! ## `CharacterMotif.transform` dependency resolution (lines 639-649) -/

/-- A feature table, identified by its column names. -/
structure Table where
  columns : List String
deriving DecidableEq, Repr

/-- The dependency step of `CharacterMotif.transform` (lines 641-649): when
the column `"Voronoi idx5 voro"` is absent from `X`, a `VoroIndex` engine is
constructed and its `fit_transform` is run on `X` exactly once; when the
column is present, `X` is used as is.  Returns the table handed to the
motif classifier together with the number of `VoroIndex` invocations. -/
def characterMotif_resolve_voro_index (voroIndexFitTransform : Table → Table)
    (X : Table) : Table × Nat :=
  if "Voronoi idx5 voro" ∈ X.columns then (X, 0)
  else (voroIndexFitTransform X, 1)

/-- C7: if the minimal Voronoi Index column `"Voronoi idx5 voro"` is already
present in the input table, the motif engine reuses the table unchanged with
zero internal Voronoi Index invocations; otherwise it invokes the Voronoi
Index engine internally exactly once, before classifying motifs. -/
theorem characterMotif_lazy_dependency (f : Table → Table) (X : Table) :
    ("Voronoi idx5 voro" ∈ X.columns →
      characterMotif_resolve_voro_index f X = (X, 0)) ∧
    ("Voronoi idx5 voro" ∉ X.columns →
      characterMotif_resolve_voro_index f X = (f X, 1)) := by
  constructor <;> intro h <;>
    simp [characterMotif_resolve_voro_index, h]

/-- Witness for C7: one table that already has the column (zero
invocations) and one that does not (exactly one invocation). -/
theorem characterMotif_lazy_dependency_witness :
    characterMotif_resolve_voro_index
        (fun X => ⟨"Voronoi idx5 voro" :: X.columns⟩)
        ⟨["Voronoi idx5 voro"]⟩ = (⟨["Voronoi idx5 voro"]⟩, 0) ∧
    characterMotif_resolve_voro_index
        (fun X => ⟨"Voronoi idx5 voro" :: X.columns⟩)
        ⟨["n_neighbors_voro"]⟩ =
      (⟨["Voronoi idx5 voro", "n_neighbors_voro"]⟩, 1) := by
  constructor
  · exact (characterMotif_lazy_dependency _ _).1 (by simp)
  · exact (characterMotif_lazy_dependency _ _).2 (by simp)

/-! ## `BOOP` (lines 1168-1253)

The Fortran routine `boop.calculate_boop` (absent from src/) produces the
four per-atom result arrays `Ql`, `Wlbar`, `coarse_Ql`, `coarse_Wlbar`
(one row of 4 spherical-harmonic orders per atom); they enter as inputs. -/

/-- `BOOP.self.bq_tags` (line 1200): the spherical-harmonic orders. -/
def BOOP_bq_tags : List String := ["4", "6", "8", "10"]

/-- `BOOP.get_feature_names` (lines 1238-1249). -/
def BOOP_feature_names (dependency_name : String) : List String :=
  BOOP_bq_tags.map (fun num => "q_" ++ num ++ " " ++ dependency_name) ++
  BOOP_bq_tags.map (fun num => "w_" ++ num ++ " " ++ dependency_name) ++
  BOOP_bq_tags.map
    (fun num => "Coarse-grained q_" ++ num ++ " " ++ dependency_name) ++
  BOOP_bq_tags.map
    (fun num => "Coarse-grained w_" ++ num ++ " " ++ dependency_name)

/-- The row-wise concatenation of `BOOP.transform` (lines 1221-1223):
`np.append` along axis 1 of `Ql`, `Wlbar`, `coarse_Ql`, `coarse_Wlbar`
(all with one row per atom). -/
def BOOP_concat_rows :
    List (List ℚ) → List (List ℚ) → List (List ℚ) → List (List ℚ) →
    List (List ℚ)
  | ql :: qls, wl :: wls, cql :: cqls, cwl :: cwls =>
    (ql ++ wl ++ cql ++ cwl) :: BOOP_concat_rows qls wls cqls cwls
  | _, _, _, _ => []

/-- C8: per atom, the BOOP feature row concatenates the four result arrays
in the fixed order Ql, Wlbar, coarse-grained Ql, coarse-grained Wlbar, and
the column names follow the same fixed order, each group spanning the
orders 4, 6, 8, 10. -/
theorem BOOP_fixed_order (Ql Wlbar cQl cWlbar : List (List ℚ)) (i : Nat)
    (hq : i < Ql.length) (hw : i < Wlbar.length)
    (hcq : i < cQl.length) (hcw : i < cWlbar.length) :
    BOOP_feature_names "voro" =
      ["q_4 voro", "q_6 voro", "q_8 voro", "q_10 voro",
       "w_4 voro", "w_6 voro", "w_8 voro", "w_10 voro",
       "Coarse-grained q_4 voro", "Coarse-grained q_6 voro",
       "Coarse-grained q_8 voro", "Coarse-grained q_10 voro",
       "Coarse-grained w_4 voro", "Coarse-grained w_6 voro",
       "Coarse-grained w_8 voro", "Coarse-grained w_10 voro"] ∧
    (BOOP_concat_rows Ql Wlbar cQl cWlbar)[i]? =
      some (Ql.getD i [] ++ Wlbar.getD i [] ++ cQl.getD i [] ++
        cWlbar.getD i []) := by
  refine ⟨rfl, ?_⟩
  induction i generalizing Ql Wlbar cQl cWlbar with
  | zero =>
    cases Ql with
    | nil => simp at hq
    | cons ql qls =>
      cases Wlbar with
      | nil => simp at hw
      | cons wl wls =>
        cases cQl with
        | nil => simp at hcq
        | cons cql cqls =>
          cases cWlbar with
          | nil => simp at hcw
          | cons cwl cwls => simp [BOOP_concat_rows]
  | succ i ih =>
    cases Ql with
    | nil => simp at hq
    | cons ql qls =>
      cases Wlbar with
      | nil => simp at hw
      | cons wl wls =>
        cases cQl with
        | nil => simp at hcq
        | cons cql cqls =>
          cases cWlbar with
          | nil => simp at hcw
          | cons cwl cwls =>
            rw [BOOP_concat_rows]
            simp only [List.getElem?_cons_succ, List.getD_cons_succ]
            exact ih qls wls cqls cwls (by simpa using hq)
              (by simpa using hw) (by simpa using hcq) (by simpa using hcw)

/-- Witness for C8 at one-atom arrays. -/
theorem BOOP_fixed_order_witness :
    (BOOP_concat_rows [[1]] [[2]] [[3]] [[4]])[0]? =
      some (([[(1 : ℚ)]].getD 0 []) ++ ([[(2 : ℚ)]].getD 0 []) ++
        ([[(3 : ℚ)]].getD 0 []) ++ ([[(4 : ℚ)]].getD 0 [])) := by
  exact (BOOP_fixed_order [[1]] [[2]] [[3]] [[4]] 0 (by decide) (by decide)
    (by decide) (by decide)).2

end Amlearn
